import Mathlib

/-!
Verification of the backcast EVM engine against its specification.

Shallow embedding of `app/services/time_machine.py` and
`app/services/eac_calculation.py`, plus the baseline-metrics index
fields of `app/services/ai_chat.py`.

Conventions of the embedding:
* a calendar `date` is an integer number of days since an arbitrary epoch;
* a `datetime` timestamp is an integer number of microseconds since the
  same epoch (Python datetimes here are UTC and microsecond-precision);
* SQLAlchemy column predicates become Lean boolean predicates on record
  structures, a filter tuple becomes a list of predicates.
-/

namespace Backcast

/-! ## Time machine (`app/services/time_machine.py`) -/

/-- Microseconds in one day. -/
def usPerDay : Int := 86400000000

/-- Microsecond timestamp of midnight (00:00:00.000000 UTC) of a date. -/
def dayStart (d : Int) : Int := d * usPerDay

/-- Microsecond timestamp of a given wall-clock time of a date. -/
def microsOfTime (d h m s us : Int) : Int :=
  dayStart d + h * 3600000000 + m * 60000000 + s * 1000000 + us

/-- `end_of_day`: `datetime.combine(control_date, time.max, tzinfo=utc)`;
`time.max` is 23:59:59.999999. -/
def end_of_day (control_date : Int) : Int :=
  dayStart control_date + 86399999999

/-- Row of the `CostElementSchedule` table, restricted to the columns the
time-machine filters read. -/
structure CostElementSchedule where
  registration_date : Int
  created_at : Int
deriving DecidableEq, Repr

/-- Row of the `EarnedValueEntry` table, restricted to the columns the
time-machine filters read. -/
structure EarnedValueEntry where
  completion_date : Int
  registration_date : Int
  created_at : Int
deriving DecidableEq, Repr

/-- Row of the `CostRegistration` table, restricted to the columns the
time-machine filters read. -/
structure CostRegistration where
  registration_date : Int
  created_at : Int
deriving DecidableEq, Repr

/-- A record satisfies a filter tuple when every predicate holds
(SQL `WHERE p1 AND p2 AND ...`). -/
def satisfiesAll {R : Type} (fs : List (R → Bool)) (r : R) : Bool :=
  fs.all (fun f => f r)

/-- `_schedule_filters`. -/
def schedule_filters (control_date : Int) : List (CostElementSchedule → Bool) :=
  [fun r => decide (r.registration_date ≤ control_date),
   fun r => decide (r.created_at ≤ end_of_day control_date)]

/-- `_earned_value_filters`. -/
def earned_value_filters (control_date : Int) : List (EarnedValueEntry → Bool) :=
  [fun r => decide (r.completion_date ≤ control_date),
   fun r => decide (r.registration_date ≤ control_date),
   fun r => decide (r.created_at ≤ end_of_day control_date)]

/-- `_cost_registration_filters`. -/
def cost_registration_filters (control_date : Int) : List (CostRegistration → Bool) :=
  [fun r => decide (r.registration_date ≤ control_date),
   fun r => decide (r.created_at ≤ end_of_day control_date)]

/-- `TimeMachineEventType`. -/
inductive TimeMachineEventType where
  | schedule
  | earned_value
  | cost_registration
deriving DecidableEq, Repr

/-- The record type each event type's filters range over. -/
def recordType : TimeMachineEventType → Type
  | .schedule => CostElementSchedule
  | .earned_value => EarnedValueEntry
  | .cost_registration => CostRegistration

/-- A registry maps an event type to its filter factory, when registered
(`dict` membership becomes `Option`). -/
def Registry : Type :=
  (t : TimeMachineEventType) → Option (Int → List (recordType t → Bool))

/-- `_VISIBILITY_FILTERS`: the module-level registry with the three built-in
factories. -/
def _VISIBILITY_FILTERS : Registry
  | .schedule => some schedule_filters
  | .earned_value => some earned_value_filters
  | .cost_registration => some cost_registration_filters

/-- `get_visibility_filters`, over an arbitrary registry state (the Python
registry is mutable via `register_time_machine_filters`); raising
`ValueError` becomes returning `Except.error`. -/
def get_visibility_filters_in (reg : Registry) (event_type : TimeMachineEventType)
    (control_date : Int) : Except String (List (recordType event_type → Bool)) :=
  match reg event_type with
  | none => .error "No time-machine filters registered"
  | some factory => .ok (factory control_date)

/-- `get_visibility_filters` on the default module-level registry. -/
def get_visibility_filters (event_type : TimeMachineEventType) (control_date : Int) :
    Except String (List (recordType event_type → Bool)) :=
  get_visibility_filters_in _VISIBILITY_FILTERS event_type control_date

/-! ## Decimal arithmetic (`decimal.Decimal` as used by
`app/services/eac_calculation.py`) -/

/-- A Python `Decimal`: an integer mantissa and an integer exponent, with
value `man * 10 ^ exp`.  `Decimal("0.01")` is `⟨1, -2⟩`,
`Decimal("100000.00")` is `⟨10000000, -2⟩`. -/
structure Dec where
  man : Int
  exp : Int
deriving DecidableEq, Repr

/-- Numeric value of a decimal (Python comparison operators compare
values, ignoring the exponent). -/
def decValue (d : Dec) : ℚ := (d.man : ℚ) * 10 ^ d.exp

/-- `ROUND_HALF_UP`: nearest integer, ties away from zero. -/
def roundHalfUp (q : ℚ) : Int :=
  if 0 ≤ q then ⌊q + 1 / 2⌋ else -⌊-q + 1 / 2⌋

/-- Quantize a numeric value to the decimal with exponent `e`,
rounding half up. -/
def quantizeQ (q : ℚ) (e : Int) : Dec :=
  ⟨roundHalfUp (q * 10 ^ (-e)), e⟩

/-- `_quantize(value, exp)` with `rounding=ROUND_HALF_UP`. -/
def _quantize (value : Dec) (e : Int) : Dec :=
  quantizeQ (decValue value) e

/-- Exact `Decimal` addition: the result exponent is the smaller of the two
operand exponents (Python's ideal exponent for `+`; the 28-significant-digit
context limit never binds at the magnitudes used here). -/
def decAdd (a b : Dec) : Dec :=
  ⟨a.man * 10 ^ (a.exp - min a.exp b.exp).toNat +
     b.man * 10 ^ (b.exp - min a.exp b.exp).toNat,
   min a.exp b.exp⟩

/-! ## EAC calculation (`app/services/eac_calculation.py`) -/

/-- `calculate_cost_element_eac`: forecast passthrough, else BAC fallback
when positive, else `Decimal("0.00")`.  (`budget_bac` is typed non-optional
in the source signature, so the `is not None` half of its guard is
vacuous.) -/
def calculate_cost_element_eac (forecast_eac : Option Dec) (budget_bac : Dec) : Dec :=
  match forecast_eac with
  | some v => _quantize v (-2)
  | none =>
    if 0 < decValue budget_bac then _quantize budget_bac (-2)
    else ⟨0, -2⟩

/-- `calculate_forecasted_quality`: `Decimal("0.0000")` when
`calculated_eac == ZERO`, else `Decimal("1.0000")` when a forecast is
present, else `Decimal("0.0000")`. -/
def calculate_forecasted_quality (forecast_eac : Option Dec) (calculated_eac : Dec) : Dec :=
  if decValue calculated_eac = 0 then ⟨0, -4⟩
  else
    match forecast_eac with
    | some _ => ⟨10000, -4⟩
    | none => ⟨0, -4⟩

/-- `aggregate_eac`: left fold of `+` starting from `Decimal("0.00")`
(Python `sum(eac_values, start=Decimal("0.00"))`), then quantized to two
places. -/
def aggregate_eac (eac_values : List Dec) : Dec :=
  _quantize (eac_values.foldl decAdd ⟨0, -2⟩) (-2)

/-- `aggregate_forecasted_quality`: `Decimal("0.0000")` when
`total_eac == ZERO`, else the quotient quantized to four places.  (Python
divides at 28 significant digits before quantizing; the quotient is modelled
exactly, which agrees after the 4-place quantization at these magnitudes.) -/
def aggregate_forecasted_quality (forecast_eac_sum total_eac : Dec) : Dec :=
  if decValue total_eac = 0 then ⟨0, -4⟩
  else quantizeQ (decValue forecast_eac_sum / decValue total_eac) (-4)

/-! ## Baseline metrics index fields (`app/services/ai_chat.py`,
`_collect_baseline_metrics`) -/

/-- Modelled from the spec: `calculate_cpi` lives in
`app/services/evm_indices.py`, which is not part of the sources; §4.5 gives
`CPI = EV / AC` (the `AC > 0` guard is applied by the caller in
`ai_chat.py`). -/
def calculate_cpi (earned_value actual_cost : ℚ) : ℚ :=
  earned_value / actual_cost

/-- Modelled from the spec: `calculate_tcpi` lives in
`app/services/evm_indices.py`, which is not part of the sources; §4.5 gives
`TCPI = (BAC − EV) / (BAC − AC)` with the zero denominator treated as
null via an explicit guard (the `BAC > 0 and AC > 0` guard is applied by
the caller in `ai_chat.py`). -/
def calculate_tcpi (bac ev ac : ℚ) : Option ℚ :=
  if bac - ac = 0 then none else some ((bac - ev) / (bac - ac))

/-- Python truthiness of a `Decimal | None` value: `None` and zero are
falsy. -/
def pyTruthy (x : Option ℚ) : Bool :=
  match x with
  | none => false
  | some q => decide (q ≠ 0)

/-- The `"cpi"` entry of the baseline metrics dict:
`cpi = calculate_cpi(ev, ac) if ac > 0 else None` followed by
`float(cpi) if cpi else None` (the `float` presentation cast is not
modelled; `some q` stands for a non-null field carrying value `q`). -/
def baseline_cpi_field (total_earned_ev total_actual_ac : ℚ) : Option ℚ :=
  let cpi : Option ℚ :=
    if 0 < total_actual_ac then some (calculate_cpi total_earned_ev total_actual_ac)
    else none
  if pyTruthy cpi then cpi else none

/-- The `"tcpi"` entry of the baseline metrics dict:
`tcpi = calculate_tcpi(bac, ev, ac) if bac > 0 and ac > 0 else None`
followed by `float(tcpi) if isinstance(tcpi, Decimal) else tcpi`, which
keeps `None` as `None` and any `Decimal` (zero included) as its value. -/
def baseline_tcpi_field (total_budget_bac total_earned_ev total_actual_ac : ℚ) :
    Option ℚ :=
  if 0 < total_budget_bac ∧ 0 < total_actual_ac then
    calculate_tcpi total_budget_bac total_earned_ev total_actual_ac
  else none

/-! ## Helper lemmas -/

theorem end_of_day_eq (d : Int) : end_of_day d = microsOfTime d 23 59 59 999999 := by
  unfold end_of_day microsOfTime dayStart
  omega

theorem roundHalfUp_intCast (n : Int) : roundHalfUp (n : ℚ) = n := by
  unfold roundHalfUp
  rcases le_or_lt 0 (n : ℚ) with h | h
  · rw [if_pos h]
    rw [Int.floor_eq_iff]
    constructor
    · linarith
    · linarith
  · rw [if_neg (not_le.mpr h)]
    have hc : (-(n : ℚ)) + 1 / 2 = ((-n : Int) : ℚ) + 1 / 2 := by push_cast; ring
    rw [hc]
    have hf : ⌊((-n : Int) : ℚ) + 1 / 2⌋ = -n := by
      rw [Int.floor_eq_iff]
      constructor
      · push_cast; linarith
      · push_cast; linarith
    rw [hf]
    ring

theorem zpow_ten_pos (e : Int) : (0 : ℚ) < 10 ^ e :=
  zpow_pos (by norm_num) e

theorem decValue_pos_iff (d : Dec) : 0 < decValue d ↔ 0 < d.man := by
  unfold decValue
  constructor
  · intro h
    by_contra hc
    push_neg at hc
    have hc2 : (d.man : ℚ) ≤ 0 := by exact_mod_cast hc
    nlinarith [zpow_ten_pos d.exp]
  · intro h
    have h2 : (0 : ℚ) < (d.man : ℚ) := by exact_mod_cast h
    exact mul_pos h2 (zpow_ten_pos d.exp)

theorem decValue_eq_zero_iff (d : Dec) : decValue d = 0 ↔ d.man = 0 := by
  unfold decValue
  rw [mul_eq_zero]
  constructor
  · rintro (h | h)
    · exact_mod_cast h
    · exact absurd h (ne_of_gt (zpow_ten_pos d.exp))
  · intro h
    left
    exact_mod_cast h

theorem decValue_neg_iff (d : Dec) : decValue d < 0 ↔ d.man < 0 := by
  rcases lt_trichotomy d.man 0 with h | h | h
  · refine ⟨fun _ => h, fun _ => ?_⟩
    unfold decValue
    have h2 : (d.man : ℚ) < 0 := by exact_mod_cast h
    exact mul_neg_of_neg_of_pos h2 (zpow_ten_pos d.exp)
  · simp [decValue, h]
  · constructor
    · intro hv
      have := (decValue_pos_iff d).mpr h
      exact absurd hv (by linarith)
    · intro hh
      omega

theorem decValue_nonpos_iff (d : Dec) : decValue d ≤ 0 ↔ d.man ≤ 0 := by
  rw [← not_lt, ← not_lt, decValue_pos_iff]

theorem quantize_self (m e : Int) : _quantize ⟨m, e⟩ e = ⟨m, e⟩ := by
  unfold _quantize quantizeQ decValue
  have h : (m : ℚ) * 10 ^ e * 10 ^ (-e) = (m : ℚ) := by
    rw [mul_assoc, ← zpow_add₀ (by norm_num : (10 : ℚ) ≠ 0)]
    simp
  rw [h, roundHalfUp_intCast]

theorem roundHalfUp_nonpos (q : ℚ) (h : q < 0) : roundHalfUp q ≤ 0 := by
  unfold roundHalfUp
  rw [if_neg (not_le.mpr h)]
  have h2 : (0 : ℤ) ≤ ⌊-q + 1 / 2⌋ := by
    rw [Int.le_floor]
    push_cast
    linarith
  omega

theorem roundHalfUp_le_neg_one (q : ℚ) (h : q ≤ -(1 / 2)) : roundHalfUp q ≤ -1 := by
  unfold roundHalfUp
  rw [if_neg (not_le.mpr (by linarith))]
  have h2 : (1 : ℤ) ≤ ⌊-q + 1 / 2⌋ := by
    rw [Int.le_floor]
    push_cast
    linarith
  omega

/-! ## Claim theorems -/

/-- Claim C1: a schedule record satisfies the predicates produced by
`get_visibility_filters(SCHEDULE, control_date)` (that is,
`_schedule_filters(control_date)`) if and only if its `registration_date`
is at most the control date and its `created_at` timestamp is at most
23:59:59.999999 UTC of the control date. -/
theorem schedule_visibility_iff (d : Int) (r : CostElementSchedule) :
    get_visibility_filters .schedule d = .ok (schedule_filters d) ∧
    (satisfiesAll (schedule_filters d) r = true ↔
      r.registration_date ≤ d ∧ r.created_at ≤ microsOfTime d 23 59 59 999999) := by
  refine ⟨rfl, ?_⟩
  rw [← end_of_day_eq]
  simp [satisfiesAll, schedule_filters]

/-- Claim C2: visibility is monotonic in the control date for all three
registered event types: whenever `d1 ≤ d2`, a record satisfying the
filters produced for `d1` also satisfies the filters produced for `d2`. -/
theorem visibility_monotone (d1 d2 : Int) (h : d1 ≤ d2) :
    (∀ r : CostElementSchedule, satisfiesAll (schedule_filters d1) r = true →
        satisfiesAll (schedule_filters d2) r = true) ∧
    (∀ r : EarnedValueEntry, satisfiesAll (earned_value_filters d1) r = true →
        satisfiesAll (earned_value_filters d2) r = true) ∧
    (∀ r : CostRegistration, satisfiesAll (cost_registration_filters d1) r = true →
        satisfiesAll (cost_registration_filters d2) r = true) := by
  refine ⟨?_, ?_, ?_⟩ <;> intro r hr <;>
    simp [satisfiesAll, schedule_filters, earned_value_filters,
      cost_registration_filters, end_of_day, dayStart, usPerDay] at hr ⊢ <;>
    omega

/-- Witness for C2 at `d1 = 0`, `d2 = 1` and a record dated at the epoch. -/
theorem visibility_monotone_witness :
    satisfiesAll (schedule_filters 1) ⟨0, 0⟩ = true :=
  (visibility_monotone 0 1 (by decide)).1 ⟨0, 0⟩ (by decide)

/-- Claim C4: `get_visibility_filters` fails (raises `ValueError`, modelled
as `Except.error`) exactly when the event type has no registered filter
factory, and on the default registry it never yields an empty predicate
tuple for a registered event type. -/
theorem get_visibility_filters_error_iff (reg : Registry) (t : TimeMachineEventType)
    (d : Int) :
    ((∃ e, get_visibility_filters_in reg t d = .error e) ↔ reg t = none) ∧
    (∀ fs, get_visibility_filters t d = .ok fs → fs ≠ []) := by
  constructor
  · constructor
    · rintro ⟨e, he⟩
      unfold get_visibility_filters_in at he
      cases h : reg t with
      | none => rfl
      | some factory =>
        rw [h] at he
        exact absurd he (by simp)
    · intro h
      refine ⟨"No time-machine filters registered", ?_⟩
      unfold get_visibility_filters_in
      rw [h]
  · intro fs hfs
    cases t <;>
      · simp [get_visibility_filters, get_visibility_filters_in,
          _VISIBILITY_FILTERS] at hfs
        subst hfs
        simp [schedule_filters, earned_value_filters, cost_registration_filters]

/-- Witness for C4: the schedule filters for control date 0 are a non-empty
tuple. -/
theorem get_visibility_filters_error_iff_witness :
    schedule_filters 0 ≠ [] :=
  (get_visibility_filters_error_iff _VISIBILITY_FILTERS .schedule 0).2
    (schedule_filters 0) rfl

/-- Claim C3: `calculate_cost_element_eac` returns the two-place
quantization of `forecast_eac` when present, else the two-place
quantization of `budget_bac` when positive, else exactly `Decimal("0.00")`;
in particular `(None, 100000.00)` yields `100000.00` and a forecast of
`150000.00` yields `150000.00`. -/
theorem eac_forecast_or_bac_fallback (f : Option Dec) (b : Dec) :
    (∀ v, f = some v → calculate_cost_element_eac f b = _quantize v (-2)) ∧
    (f = none → 0 < decValue b → calculate_cost_element_eac f b = _quantize b (-2)) ∧
    (f = none → ¬ 0 < decValue b → calculate_cost_element_eac f b = ⟨0, -2⟩) ∧
    calculate_cost_element_eac none ⟨10000000, -2⟩ = ⟨10000000, -2⟩ ∧
    calculate_cost_element_eac (some ⟨15000000, -2⟩) b = ⟨15000000, -2⟩ := by
  refine ⟨?_, ?_, ?_, ?_, ?_⟩
  · intro v hv
    subst hv
    rfl
  · intro hf hpos
    subst hf
    simp [calculate_cost_element_eac, hpos]
  · intro hf hpos
    subst hf
    simp [calculate_cost_element_eac, hpos]
  · have hpos : 0 < decValue ⟨10000000, -2⟩ := (decValue_pos_iff _).mpr (by decide)
    simp [calculate_cost_element_eac, hpos]
    exact quantize_self 10000000 (-2)
  · show _quantize ⟨15000000, -2⟩ (-2) = ⟨15000000, -2⟩
    exact quantize_self 15000000 (-2)

/-- Witness for C3: the BAC fallback branch at `forecast_eac = None`,
`budget_bac = Decimal("5.00")`. -/
theorem eac_forecast_or_bac_fallback_witness :
    calculate_cost_element_eac none ⟨500, -2⟩ = _quantize ⟨500, -2⟩ (-2) :=
  (eac_forecast_or_bac_fallback none ⟨500, -2⟩).2.1 rfl
    ((decValue_pos_iff ⟨500, -2⟩).mpr (by decide))

/-- Claim C7: `calculate_forecasted_quality` returns exactly
`Decimal("1.0000")` when a forecast is present and the calculated EAC is
non-zero, exactly `Decimal("0.0000")` when no forecast is present, and
exactly `Decimal("0.0000")` whenever the calculated EAC equals zero. -/
theorem forecasted_quality_cases (f : Option Dec) (c : Dec) :
    (f ≠ none → decValue c ≠ 0 → calculate_forecasted_quality f c = ⟨10000, -4⟩) ∧
    (f = none → calculate_forecasted_quality f c = ⟨0, -4⟩) ∧
    (decValue c = 0 → calculate_forecasted_quality f c = ⟨0, -4⟩) := by
  refine ⟨?_, ?_, ?_⟩
  · intro hf hc
    cases f with
    | none => exact absurd rfl hf
    | some v => simp [calculate_forecasted_quality, hc]
  · intro hf
    subst hf
    by_cases hc : decValue c = 0 <;> simp [calculate_forecasted_quality, hc]
  · intro hc
    simp [calculate_forecasted_quality, hc]

/-- Witness for C7: a present forecast with `calculated_eac = Decimal("1")`
yields quality `1.0000`. -/
theorem forecasted_quality_cases_witness :
    calculate_forecasted_quality (some ⟨1, 0⟩) ⟨1, 0⟩ = ⟨10000, -4⟩ :=
  (forecasted_quality_cases (some ⟨1, 0⟩) ⟨1, 0⟩).1 (by simp)
    (fun h => by simpa using (decValue_eq_zero_iff ⟨1, 0⟩).mp h)

/-- Claim C8: `aggregate_forecasted_quality` divides the forecast EAC sum
by the total EAC and quantizes to four places with round-half-up when the
total is non-zero, returns exactly `Decimal("0.0000")` when it is zero, and
on the spec example (`aggregate_eac` of `100000.00`, `200000.00`,
`150000.00` giving `450000.00`, forecast sum `250000.00`) yields
`0.5556`. -/
theorem aggregate_quality_spec (s t : Dec) :
    (decValue t ≠ 0 →
      aggregate_forecasted_quality s t = quantizeQ (decValue s / decValue t) (-4)) ∧
    (decValue t = 0 → aggregate_forecasted_quality s t = ⟨0, -4⟩) ∧
    aggregate_eac [⟨10000000, -2⟩, ⟨20000000, -2⟩, ⟨15000000, -2⟩] = ⟨45000000, -2⟩ ∧
    aggregate_forecasted_quality ⟨25000000, -2⟩ ⟨45000000, -2⟩ = ⟨5556, -4⟩ := by
  refine ⟨?_, ?_, ?_, ?_⟩
  · intro ht
    simp [aggregate_forecasted_quality, ht]
  · intro ht
    simp [aggregate_forecasted_quality, ht]
  · have hfold : ([⟨10000000, -2⟩, ⟨20000000, -2⟩, ⟨15000000, -2⟩] : List Dec).foldl
        decAdd ⟨0, -2⟩ = ⟨45000000, -2⟩ := by decide
    unfold aggregate_eac
    rw [hfold]
    exact quantize_self 45000000 (-2)
  · have ht : decValue ⟨45000000, -2⟩ ≠ 0 := by
      rw [Ne, decValue_eq_zero_iff]
      decide
    rw [aggregate_forecasted_quality, if_neg ht]
    unfold quantizeQ decValue
    have hval : ((25000000 : Int) : ℚ) * 10 ^ (-2 : Int) /
        (((45000000 : Int) : ℚ) * 10 ^ (-2 : Int)) * 10 ^ (-(-4) : Int) = 50000 / 9 := by
      norm_num
    rw [hval]
    unfold roundHalfUp
    rw [if_pos (by norm_num)]
    have hf : ⌊(50000 / 9 : ℚ) + 1 / 2⌋ = 5556 := by
      rw [Int.floor_eq_iff]
      norm_num
    rw [hf]

/-- Witness for C8: the zero-total branch at
`forecast_eac_sum = Decimal("0.01")`, `total_eac = Decimal("0.00")`. -/
theorem aggregate_quality_spec_witness :
    aggregate_forecasted_quality ⟨1, -2⟩ ⟨0, -2⟩ = ⟨0, -4⟩ :=
  (aggregate_quality_spec ⟨1, -2⟩ ⟨0, -2⟩).2.1
    ((decValue_eq_zero_iff ⟨0, -2⟩).mpr rfl)

/-- Claim C9: the EAC metrics functions are deterministic - identical
inputs give bit-identical `Decimal` outputs (mantissa and exponent alike),
and the output exponent is canonical (always two places for EAC values and
four places for quality ratios); the embedding is exact integer/rational
arithmetic, with no floating point involved. -/
theorem eac_functions_deterministic :
    (∀ f1 f2 b1 b2, f1 = f2 → b1 = b2 →
      calculate_cost_element_eac f1 b1 = calculate_cost_element_eac f2 b2 ∧
      (calculate_cost_element_eac f1 b1).exp = -2) ∧
    (∀ f1 f2 c1 c2, f1 = f2 → c1 = c2 →
      calculate_forecasted_quality f1 c1 = calculate_forecasted_quality f2 c2 ∧
      (calculate_forecasted_quality f1 c1).exp = -4) ∧
    (∀ l1 l2 : List Dec, l1 = l2 →
      aggregate_eac l1 = aggregate_eac l2 ∧ (aggregate_eac l1).exp = -2) ∧
    (∀ s1 s2 t1 t2, s1 = s2 → t1 = t2 →
      aggregate_forecasted_quality s1 t1 = aggregate_forecasted_quality s2 t2 ∧
      (aggregate_forecasted_quality s1 t1).exp = -4) := by
  refine ⟨?_, ?_, ?_, ?_⟩
  · intro f1 f2 b1 b2 h1 h2
    subst h1; subst h2
    refine ⟨rfl, ?_⟩
    cases f1 with
    | some v => rfl
    | none =>
      by_cases h : 0 < decValue b1 <;>
        simp [calculate_cost_element_eac, h, _quantize, quantizeQ]
  · intro f1 f2 c1 c2 h1 h2
    subst h1; subst h2
    refine ⟨rfl, ?_⟩
    by_cases h : decValue c1 = 0
    · simp [calculate_forecasted_quality, h]
    · cases f1 <;> simp [calculate_forecasted_quality, h]
  · intro l1 l2 h
    subst h
    exact ⟨rfl, rfl⟩
  · intro s1 s2 t1 t2 h1 h2
    subst h1; subst h2
    refine ⟨rfl, ?_⟩
    by_cases h : decValue t1 = 0 <;> simp [aggregate_forecasted_quality, h, quantizeQ]

/-- Witness for C9: two invocations on the literal inputs of the EAC
fallback example agree, with exponent -2. -/
theorem eac_functions_deterministic_witness :
    calculate_cost_element_eac none ⟨10000000, -2⟩ =
      calculate_cost_element_eac none ⟨10000000, -2⟩ ∧
    (calculate_cost_element_eac none ⟨10000000, -2⟩).exp = -2 :=
  eac_functions_deterministic.1 none none ⟨10000000, -2⟩ ⟨10000000, -2⟩ rfl rfl

/-- Counterexample to C10 as stated: `forecast_eac = Decimal("-0.001")` is
negative, yet the EAC it yields is `Decimal("-0.00")`, whose value is zero,
not negative (round-half-up to two places sends (-0.005, 0) to zero). -/
theorem negative_forecast_eac_counterexample :
    decValue ⟨-1, -3⟩ < 0 ∧
    ¬ decValue (calculate_cost_element_eac (some ⟨-1, -3⟩) ⟨10000000, -2⟩) < 0 := by
  constructor
  · rw [decValue_neg_iff]
    decide
  · have h1 : calculate_cost_element_eac (some ⟨-1, -3⟩) ⟨10000000, -2⟩ = ⟨0, -2⟩ := by
      show _quantize ⟨-1, -3⟩ (-2) = ⟨0, -2⟩
      unfold _quantize quantizeQ decValue
      have hv : ((-1 : Int) : ℚ) * 10 ^ (-3 : Int) * 10 ^ (-(-2) : Int) = -(1 / 10) := by
        norm_num
      rw [hv]
      unfold roundHalfUp
      rw [if_neg (by norm_num)]
      have hf : ⌊-(-(1 / 10 : ℚ)) + 1 / 2⌋ = 0 := by
        rw [Int.floor_eq_iff]
        norm_num
      rw [hf]
      rfl
    rw [h1, decValue_neg_iff]
    decide

/-- Claim C10, amended: a non-null `forecast_eac` (zero and negative values
included) is always passed through two-place quantization and never falls
back to `budget_bac`; `forecast_eac = Decimal(0)` gives `0.00` whatever the
BAC; a negative `forecast_eac` gives a non-positive EAC, which is strictly
negative whenever `forecast_eac ≤ -0.005` (values in `(-0.005, 0)` round to
a zero-valued `-0.00`). -/
theorem forecast_passthrough_corrected (f b : Dec) :
    calculate_cost_element_eac (some f) b = _quantize f (-2) ∧
    calculate_cost_element_eac (some ⟨0, 0⟩) b = ⟨0, -2⟩ ∧
    (decValue f < 0 → decValue (calculate_cost_element_eac (some f) b) ≤ 0) ∧
    (decValue f ≤ -(1 / 200) → decValue (calculate_cost_element_eac (some f) b) < 0) := by
  have hform : ∀ g : Dec, calculate_cost_element_eac (some g) b =
      ⟨roundHalfUp (decValue g * 10 ^ (-(-2) : Int)), -2⟩ := fun g => rfl
  refine ⟨rfl, ?_, ?_, ?_⟩
  · rw [hform]
    have hz : decValue ⟨0, 0⟩ * 10 ^ (-(-2) : Int) = ((0 : Int) : ℚ) := by
      simp [decValue]
    rw [hz, roundHalfUp_intCast]
  · intro hneg
    rw [hform, decValue_nonpos_iff]
    refine roundHalfUp_nonpos _ ?_
    exact mul_neg_of_neg_of_pos hneg (by norm_num)
  · intro hle
    rw [hform, decValue_neg_iff]
    have h2 : decValue f * 10 ^ (-(-2) : Int) ≤ -(1 / 2) := by
      have hp : ((10 : ℚ) ^ (-(-2) : Int)) = 100 := by norm_num
      rw [hp]
      nlinarith
    have h3 := roundHalfUp_le_neg_one _ h2
    show roundHalfUp (decValue f * 10 ^ (-(-2) : Int)) < 0
    omega

/-- Witness for C10 (amended): `forecast_eac = Decimal("-5.00")` yields an
EAC of strictly negative value even with a positive BAC. -/
theorem forecast_passthrough_corrected_witness :
    decValue (calculate_cost_element_eac (some ⟨-500, -2⟩) ⟨10000000, -2⟩) < 0 :=
  (forecast_passthrough_corrected ⟨-500, -2⟩ ⟨10000000, -2⟩).2.2.2
    (by norm_num [decValue])

/-- Counterexample to C5 as stated: with summed earned value 0 and summed
actual cost 100 the actual cost is positive, yet the `cpi` field of the
baseline metrics dict is null - `float(cpi) if cpi else None` treats the
computed `Decimal` zero as falsy - where the claim demands it carry the
value `EV / AC = 0`. -/
theorem cpi_zero_is_null_counterexample :
    (0 : ℚ) < 100 ∧ baseline_cpi_field 0 100 = none := by
  refine ⟨by norm_num, ?_⟩
  simp [baseline_cpi_field, calculate_cpi, pyTruthy]

/-- Claim C5, amended: the `cpi` field of the baseline metrics record is
null when the summed actual cost is not positive, and also when the
computed ratio is zero (summed earned value 0); whenever the summed actual
cost is positive and the summed earned value is non-zero the field carries
`EV / AC`. -/
theorem cpi_field_corrected (ev ac : ℚ) :
    (¬ 0 < ac → baseline_cpi_field ev ac = none) ∧
    (0 < ac → ev = 0 → baseline_cpi_field ev ac = none) ∧
    (0 < ac → ev ≠ 0 → baseline_cpi_field ev ac = some (ev / ac)) := by
  refine ⟨?_, ?_, ?_⟩
  · intro h
    simp [baseline_cpi_field, h, pyTruthy]
  · intro hac hev
    subst hev
    simp [baseline_cpi_field, hac, calculate_cpi, pyTruthy]
  · intro hac hev
    have hne : ev / ac ≠ 0 := div_ne_zero hev (ne_of_gt hac)
    simp [baseline_cpi_field, hac, calculate_cpi, pyTruthy, hne]

/-- Witness for C5 (amended): summed EV 1, summed AC 2 give a non-null cpi
field carrying 1/2. -/
theorem cpi_field_corrected_witness :
    baseline_cpi_field 1 2 = some (1 / 2) :=
  (cpi_field_corrected 1 2).2.2 (by norm_num) (by norm_num)

/-- Claim C6: the `tcpi` field of the baseline metrics record is null
whenever `BAC ≤ 0`, or `AC ≤ 0`, or the denominator `BAC - AC` is zero
(`BAC = AC > 0` included); the zero denominator is excluded by the explicit
guard in `calculate_tcpi`, and otherwise the field carries
`(BAC - EV) / (BAC - AC)`. -/
theorem tcpi_field_null_guard (bac ev ac : ℚ) :
    (bac ≤ 0 ∨ ac ≤ 0 ∨ bac - ac = 0 → baseline_tcpi_field bac ev ac = none) ∧
    (0 < bac → 0 < ac → bac - ac ≠ 0 →
      baseline_tcpi_field bac ev ac = some ((bac - ev) / (bac - ac))) := by
  constructor
  · rintro (h | h | h)
    · simp [baseline_tcpi_field, not_lt.mpr h]
    · simp [baseline_tcpi_field, not_lt.mpr h]
    · by_cases hg : 0 < bac ∧ 0 < ac
      · simp [baseline_tcpi_field, hg, calculate_tcpi, h]
      · simp [baseline_tcpi_field, hg]
  · intro hbac hac hden
    simp [baseline_tcpi_field, hbac, hac, calculate_tcpi, hden]

/-- Witness for C6: `BAC = AC = 1 > 0` (zero denominator) gives a null
tcpi field. -/
theorem tcpi_field_null_guard_witness :
    baseline_tcpi_field 1 0 1 = none :=
  (tcpi_field_null_guard 1 0 1).1 (Or.inr (Or.inr (by norm_num)))

end Backcast
